import Mathlib

/-
  Shallow embedding of the telemetry-synchronization and command-dispatch
  core of src/app.py (SOIL_FINAL repository).

  Modelling conventions:
  - Python dict access d.get(key, default) on possibly-missing JSON fields is
    modelled by Option together with Option.getD.
  - Times (ISO-8601 strings in the code) are modelled by rationals measured in
    seconds, which preserves the sub-second precision of
    datetime.total_seconds.  A stored timestamp field is a TsField: it can be
    absent (null or missing key), malformed (a string that
    datetime.fromisoformat rejects) or a valid instant.
  - The Firebase realtime database references sensor_ref and commands_ref are
    modelled as Option-valued slots inside SystemState; FIREBASE_ENABLED is a
    Boolean environment flag.  Network failures of individual Firebase calls
    are modelled by Boolean failure flags in the per-request environment.
  - The SQLite database soilsense.db is modelled by LocalDb: the singleton
    sensor_current row (id = 1), the append-only sensor_history table and the
    pump_commands table (as a list in insertion order).  A request commits at
    the end of the handler; when a statement raises before conn.commit, the
    uncommitted SQLite changes of that request are rolled back, which the
    embedding reflects by returning the unmodified LocalDb on the error path.
  - Numeric sensor fields are rationals; soil channels are integers.
-/

/-- Timeout constant from app.py line 20: the device is considered offline
after 30 seconds without data. -/
def ESP32_TIMEOUT_SECONDS : ℚ := 30

/-- Stored timestamp field: absent (null/missing/empty), malformed
(unparseable by datetime.fromisoformat) or a valid instant in seconds. -/
inductive TsField where
  | absent : TsField
  | malformed : TsField
  | valid (t : ℚ) : TsField
deriving DecidableEq

/-- Firebase commands record (commands_ref), written by set_mode and
set_pump, read by esp32_push_data and esp32_get_command.  Every field can be
missing, as Firebase stores free-form JSON. -/
structure FirebaseCmd where
  type : Option String
  value : Option String
  executed : Option Bool
  timestamp : Option ℚ
deriving DecidableEq

/-- Firebase sensor_data record (sensor_ref), written by esp32_push_data
(app.py lines 1152-1164) and read by get_data. -/
structure FbSensorData where
  soil_percent : Option (List Int)
  soil_status : Option String
  pump_status : Option String
  mode : Option String
  temperature : Option ℚ
  humidity : Option ℚ
  battery_voltage : Option ℚ
  battery_percent : Option ℚ
  current_consumed : Option ℚ
  power : Option (List (String × String))
  timestamp : TsField
deriving DecidableEq

/-- Singleton sensor_current SQLite row (id = 1, schema at app.py lines
123-129).  Column values can be NULL; the JSON text columns soil_percent and
power_data are modelled by their decoded values. -/
structure SensorRow where
  soil_percent : Option (List Int)
  soil_status : Option String
  pump_status : Option String
  mode : Option String
  temperature : Option ℚ
  humidity : Option ℚ
  battery_voltage : Option ℚ
  battery_percent : Option ℚ
  current_consumed : Option ℚ
  power_data : Option (List (String × String))
  esp32_online : Bool
  last_update : TsField
deriving DecidableEq

/-- Row of the sensor_history SQLite table as inserted by esp32_push_data
(app.py lines 1188-1203). -/
structure HistoryEntry where
  soil_avg : ℚ
  soil1 : Int
  soil2 : Int
  soil3 : Int
  soil4 : Int
  temperature : Option ℚ
  humidity : Option ℚ
  pump_status : String
  mode : String
  battery_voltage : Option ℚ
  battery_percent : Option ℚ
  current_consumed : Option ℚ
deriving DecidableEq

/-- Row of the pump_commands SQLite table (schema at app.py lines 130-137).
Rows are kept in insertion order; created_at is assigned by the database at
insert time and id is the autoincrement key. -/
structure PumpCommandRow where
  id : Nat
  user_id : Option Nat
  command_type : String
  value : String
  created_at : ℚ
  executed : Bool
deriving DecidableEq

/-- Local SQLite database: the singleton state row, the history table and the
pump_commands table. -/
structure LocalDb where
  current : SensorRow
  history : List HistoryEntry
  pumpQueue : List PumpCommandRow
deriving DecidableEq

/-- Whole mutable state visible to the handlers: the two Firebase slots and
the SQLite database. -/
structure SystemState where
  fbSensor : Option FbSensorData
  fbCommands : Option FirebaseCmd
  db : LocalDb
deriving DecidableEq

/-- Device report as parsed from the JSON body of a push request.  Every
field may be missing; defaults are applied at each use site, as in the
code. -/
structure Report where
  soil_percent : Option (List Int)
  soil_status : Option String
  pump_status : Option String
  mode : Option String
  temperature : Option ℚ
  humidity : Option ℚ
  battery_voltage : Option ℚ
  battery_percent : Option ℚ
  current_consumed : Option ℚ
  power : Option (List (String × String))
deriving DecidableEq

/-- Python str.upper restricted to ASCII case mapping, as applied to the
mode and pump path parameters.  Defined over the character list so that the
kernel can evaluate it on literals. -/
def pyUpper (s : String) : String := String.mk (s.data.map Char.toUpper)

/-- Issue endpoint set_mode (app.py lines 1369-1393).  When Firebase is
enabled the commands slot is overwritten with a fresh unexecuted command and
the SQLite queue is not touched; otherwise a row is inserted into
pump_commands and the Firebase slot is not touched.  The now argument stands
for both the ISO timestamp written to Firebase and the CURRENT_TIMESTAMP
default of the created_at column. -/
def set_mode (firebaseEnabled : Bool) (mode : String) (now : ℚ)
    (userId freshId : Nat) (s : SystemState) : SystemState :=
  let cmd : FirebaseCmd :=
    { type := some "mode", value := some (pyUpper mode),
      executed := some false, timestamp := some now }
  let row : PumpCommandRow :=
    { id := freshId, user_id := some userId, command_type := "mode",
      value := pyUpper mode, created_at := now, executed := false }
  if firebaseEnabled then
    { s with fbCommands := some cmd }
  else
    { s with db := { s.db with pumpQueue := s.db.pumpQueue ++ [row] } }

/-- Issue endpoint set_pump (app.py lines 1395-1419), identical to set_mode
except for the command kind. -/
def set_pump (firebaseEnabled : Bool) (state : String) (now : ℚ)
    (userId freshId : Nat) (s : SystemState) : SystemState :=
  let cmd : FirebaseCmd :=
    { type := some "pump", value := some (pyUpper state),
      executed := some false, timestamp := some now }
  let row : PumpCommandRow :=
    { id := freshId, user_id := some userId, command_type := "pump",
      value := pyUpper state, created_at := now, executed := false }
  if firebaseEnabled then
    { s with fbCommands := some cmd }
  else
    { s with db := { s.db with pumpQueue := s.db.pumpQueue ++ [row] } }

/-- Firebase update of the executed flag (commands_ref.update at app.py lines
1217 and 1249).  A Firebase update on an absent record creates it with just
the written field. -/
def setExecutedSlot : Option FirebaseCmd → Option FirebaseCmd
  | none => some { type := none, value := none, executed := some true,
                   timestamp := none }
  | some c => some { c with executed := some true }

/-- Remote command take common to app.py lines 1211-1217 (push) and
1247-1254 (poll): read the slot; when the record exists and
cmd_data.get(executed, True) is False, mark it executed and return its type
and value, otherwise return nothing and leave the slot as it is. -/
def fbTake (slot : Option FirebaseCmd) :
    Option (Option String × Option String) × Option FirebaseCmd :=
  match slot with
  | none => (none, none)
  | some cmd =>
      if cmd.executed.getD true then (none, some cmd)
      else (some (cmd.type, cmd.value), setExecutedSlot (some cmd))

/-- First row of the queue with executed = 0, scanning in list order.  With
the queue in ascending created_at order this is the SELECT with
ORDER BY created_at ASC LIMIT 1 of app.py line 1223. -/
def firstPending : List PumpCommandRow → Option PumpCommandRow
  | [] => none
  | r :: rs => if r.executed then firstPending rs else some r

/-- Reverse-order scan: with the queue in ascending created_at order this is
the SELECT with ORDER BY created_at DESC LIMIT 1 of app.py line 1261. -/
def lastPending (q : List PumpCommandRow) : Option PumpCommandRow :=
  firstPending q.reverse

/-- UPDATE pump_commands SET executed = 1 WHERE id = ? (app.py lines 1226 and
1265). -/
def markExecuted (i : Nat) (q : List PumpCommandRow) : List PumpCommandRow :=
  q.map fun r => if r.id = i then { r with executed := true } else r

/-- SQLite command take of the ingest path (app.py lines 1222-1226): pop the
oldest unexecuted row, mark it executed, return its type and value. -/
def takeOldestLocal (q : List PumpCommandRow) :
    Option (String × String) × List PumpCommandRow :=
  match firstPending q with
  | some c => (some (c.command_type, c.value), markExecuted c.id q)
  | none => (none, q)

/-- Arithmetic soil average of app.py line 1186: sum divided by length when
the list is non-empty (Python truthiness of a list), otherwise 0.  Soil
channels are integers and a four-channel report divides an integer sum by 4,
a power of two, so IEEE double division in the code is exact there and the
rational model is faithful. -/
def soil_avg (sp : List Int) : ℚ :=
  if sp = [] then 0 else ((sp.sum : ℚ) / (sp.length : ℚ))

/-- Firebase sensor record built by the sensor_ref.set call of the push
handler (app.py lines 1152-1164), with the defaults of each data.get. -/
def fbDataOfReport (report : Report) (ts : ℚ) : FbSensorData :=
  { soil_percent := some (report.soil_percent.getD [0, 0, 0, 0])
    soil_status := some (report.soil_status.getD "UNKNOWN")
    pump_status := some (report.pump_status.getD "OFF")
    mode := some (report.mode.getD "AUTO")
    temperature := report.temperature
    humidity := report.humidity
    battery_voltage := report.battery_voltage
    battery_percent := report.battery_percent
    current_consumed := report.current_consumed
    power := some (report.power.getD [])
    timestamp := TsField.valid ts }

/-- New sensor_current row written by the UPDATE of app.py lines 1173-1182:
every column is overwritten, esp32_online is set to 1 and last_update to the
ingest timestamp. -/
def rowOfReport (report : Report) (ts : ℚ) : SensorRow :=
  { soil_percent := some (report.soil_percent.getD [0, 0, 0, 0])
    soil_status := some (report.soil_status.getD "UNKNOWN")
    pump_status := some (report.pump_status.getD "OFF")
    mode := some (report.mode.getD "AUTO")
    temperature := report.temperature
    humidity := report.humidity
    battery_voltage := report.battery_voltage
    battery_percent := report.battery_percent
    current_consumed := report.current_consumed
    power_data := some (report.power.getD [])
    esp32_online := true
    last_update := TsField.valid ts }

/-- History row built by the INSERT of app.py lines 1188-1203.  Each soil
channel column uses the value at its index when present and 0 otherwise,
exactly as the Python conditional expressions do. -/
def historyOfReport (report : Report) : HistoryEntry :=
  let sp := report.soil_percent.getD [0, 0, 0, 0]
  { soil_avg := soil_avg sp
    soil1 := sp.getD 0 0
    soil2 := sp.getD 1 0
    soil3 := sp.getD 2 0
    soil4 := sp.getD 3 0
    temperature := report.temperature
    humidity := report.humidity
    pump_status := report.pump_status.getD "OFF"
    mode := report.mode.getD "AUTO"
    battery_voltage := report.battery_voltage
    battery_percent := report.battery_percent
    current_consumed := report.current_consumed }

/-- Per-request environment of the push handler: whether Firebase is
configured (FIREBASE_ENABLED together with the non-null refs) and which of
the fallible calls raises during this request.  The fbCmdFails flag models
the commands_ref.get call of line 1211 raising. -/
structure IngestEnv where
  firebaseEnabled : Bool
  fbWriteFails : Bool
  fbCmdFails : Bool
  localWriteFails : Bool
  historyFails : Bool
deriving DecidableEq

/-- Response of the push handler: ok carries the optional command object of
the JSON body (success true), err is the generic handler of app.py line 1235
answering success false with HTTP status 500. -/
inductive IngestResult where
  | ok (command : Option (Option String × Option String)) : IngestResult
  | err : IngestResult
deriving DecidableEq

/-- Push handler esp32_push_data (app.py lines 1136-1238).  Step order as in
the code: Firebase sensor write inside its own try block (failure swallowed),
SQLite UPDATE of sensor_current, history INSERT, then the command take, with
conn.commit only at the end; an exception after the Firebase write and before
the commit rolls the SQLite changes back and reaches the generic error
handler.  When Firebase is enabled the command take only consults the
Firebase slot (a failure there is swallowed and no local fallback happens
inside this handler); when Firebase is disabled the SQLite pump_commands
fallback of lines 1222-1226 runs. -/
def esp32_push_data (env : IngestEnv) (report : Report) (ts : ℚ)
    (s : SystemState) : IngestResult × SystemState :=
  let s1 := if env.firebaseEnabled && !env.fbWriteFails then
    { s with fbSensor := some (fbDataOfReport report ts) } else s
  if env.localWriteFails then (IngestResult.err, s1)
  else if env.historyFails then (IngestResult.err, s1)
  else
    let current2 := rowOfReport report ts
    let entry := historyOfReport report
    if env.firebaseEnabled then
      if env.fbCmdFails then
        (IngestResult.ok none,
         { s1 with db := { current := current2,
                           history := s1.db.history ++ [entry],
                           pumpQueue := s1.db.pumpQueue } })
      else
        let taken := fbTake s1.fbCommands
        (IngestResult.ok taken.1,
         { s1 with fbCommands := taken.2,
                   db := { current := current2,
                           history := s1.db.history ++ [entry],
                           pumpQueue := s1.db.pumpQueue } })
    else
      let taken := takeOldestLocal s1.db.pumpQueue
      (IngestResult.ok (taken.1.map fun p => (some p.1, some p.2)),
       { s1 with db := { current := current2,
                         history := s1.db.history ++ [entry],
                         pumpQueue := taken.2 } })

/-- Per-request environment of the dedicated poll endpoint: Firebase
configuration and whether the commands_ref.get call of line 1247 raises
(which is caught and falls through to the SQLite fallback). -/
structure PollEnv where
  firebaseEnabled : Bool
  fbCmdFails : Bool
deriving DecidableEq

/-- JSON response of esp32_get_command: has_command with optional type and
value fields. -/
structure PollResult where
  has_command : Bool
  type : Option String
  value : Option String
deriving DecidableEq

/-- SQLite branch of esp32_get_command (app.py lines 1258-1274): SELECT the
unexecuted row with ORDER BY created_at DESC LIMIT 1, mark it executed and
answer has_command true, otherwise answer has_command false. -/
def pollLocal (s : SystemState) : PollResult × SystemState :=
  match lastPending s.db.pumpQueue with
  | some c =>
      ({ has_command := true, type := some c.command_type,
         value := some c.value },
       { s with db := { s.db with
           pumpQueue := markExecuted c.id s.db.pumpQueue } })
  | none => ({ has_command := false, type := none, value := none }, s)

/-- Poll endpoint esp32_get_command (app.py lines 1240-1281).  When Firebase
is configured and readable and the slot holds an unexecuted command, mark it
executed and answer it; in every other case (Firebase disabled, read failure
caught at line 1255, absent record, or record already executed) fall through
to the SQLite branch. -/
def esp32_get_command (env : PollEnv) (s : SystemState) :
    PollResult × SystemState :=
  if env.firebaseEnabled && !env.fbCmdFails then
    match s.fbCommands with
    | some cmd =>
        if cmd.executed.getD true then pollLocal s
        else
          ({ has_command := true, type := cmd.type, value := cmd.value },
           { s with fbCommands := setExecutedSlot (some cmd) })
    | none => pollLocal s
  else pollLocal s

/-- Provenance tag of a dashboard read.  The code writes the literal strings
firebase and sqlite into the source field; the spec names the same two
backends remote and local, and the embedding uses the spec vocabulary for the
tag of each branch. -/
inductive Source where
  | remote : Source
  | local : Source
deriving DecidableEq

/-- Complete JSON snapshot answered by get_data, one backend at a time. -/
structure StateView where
  soil_percent : List Int
  soil_status : Option String
  pump_status : Option String
  mode : Option String
  temperature : Option ℚ
  humidity : Option ℚ
  battery_voltage : Option ℚ
  battery_percent : Option ℚ
  current_consumed : Option ℚ
  power : List (String × String)
  esp32_online : Bool
  last_update : TsField
deriving DecidableEq

/-- Result of get_data: a snapshot served by one backend, the minimal
response of app.py line 1364 when the sensor_current row is absent, or the
generic error response with HTTP status 500 of line 1367. -/
inductive ReadResult where
  | snapshot (src : Source) (v : StateView) : ReadResult
  | minimal : ReadResult
  | error : ReadResult
deriving DecidableEq

/-- Online determination of the Firebase branch (app.py lines 1294-1304):
false when the timestamp field is absent, false when parsing it raises (the
except clause of line 1302) and the strict comparison of the elapsed seconds
against the timeout otherwise. -/
def fbOnline (ts : TsField) (now timeout : ℚ) : Bool :=
  match ts with
  | TsField.absent => false
  | TsField.malformed => false
  | TsField.valid t => decide (now - t < timeout)

/-- Online determination of the SQLite branch (app.py lines 1329-1343).
The stored flag is conjoined with the staleness test (line 1335).  When
datetime.fromisoformat raises, the except handler of line 1343 calls
data.get on a sqlite3.Row object, which has no get method, so an
AttributeError escapes the handler; the none result models that escaping
exception. -/
def localOnline (r : SensorRow) (now timeout : ℚ) : Option Bool :=
  match r.last_update with
  | TsField.absent => some false
  | TsField.malformed => none
  | TsField.valid t => some (r.esp32_online && decide (now - t < timeout))

/-- Firebase snapshot of get_data (app.py lines 1306-1320), every field read
from the Firebase record with the defaults of each data.get. -/
def fbView (d : FbSensorData) (now timeout : ℚ) : StateView :=
  { soil_percent := d.soil_percent.getD [0, 0, 0, 0]
    soil_status := some (d.soil_status.getD "UNKNOWN")
    pump_status := some (d.pump_status.getD "OFF")
    mode := some (d.mode.getD "AUTO")
    temperature := d.temperature
    humidity := d.humidity
    battery_voltage := d.battery_voltage
    battery_percent := d.battery_percent
    current_consumed := d.current_consumed
    power := d.power.getD []
    esp32_online := fbOnline d.timestamp now timeout
    last_update := d.timestamp }

/-- SQLite snapshot of get_data (app.py lines 1348-1362), every field read
from the sensor_current row, with the online flag computed by the preceding
block. -/
def localView (r : SensorRow) (online : Bool) : StateView :=
  { soil_percent := r.soil_percent.getD [0, 0, 0, 0]
    soil_status := r.soil_status
    pump_status := r.pump_status
    mode := r.mode
    temperature := r.temperature
    humidity := r.humidity
    battery_voltage := r.battery_voltage
    battery_percent := r.battery_percent
    current_consumed := r.current_consumed
    power := r.power_data.getD []
    esp32_online := online
    last_update := r.last_update }

/-- Per-request environment of get_data: Firebase configuration and whether
the sensor_ref.get call of line 1292 raises (caught at line 1321, falling
through to SQLite). -/
structure ReadEnv where
  firebaseEnabled : Bool
  fbReadFails : Bool
deriving DecidableEq

/-- SQLite branch of get_data (app.py lines 1324-1364).  The branch also
writes esp32_online = 0 back to the row on timeout (lines 1338-1340); that
write does not change the response and the embedding returns the response
only. -/
def get_data_local (row : Option SensorRow) (now : ℚ) : ReadResult :=
  match row with
  | none => ReadResult.minimal
  | some r =>
      match localOnline r now ESP32_TIMEOUT_SECONDS with
      | none => ReadResult.error
      | some b => ReadResult.snapshot Source.local (localView r b)

/-- Dashboard read get_data (app.py lines 1284-1367): prefer the Firebase
snapshot when Firebase is configured, its read call does not raise and the
record is non-empty; fall through to the SQLite branch otherwise. -/
def get_data (env : ReadEnv) (fbData : Option FbSensorData)
    (row : Option SensorRow) (now : ℚ) : ReadResult :=
  if env.firebaseEnabled && !env.fbReadFails then
    match fbData with
    | some d =>
        ReadResult.snapshot Source.remote (fbView d now ESP32_TIMEOUT_SECONDS)
    | none => get_data_local row now
  else get_data_local row now

/-- Thread-local view of one take_pending call in the race model: a program
counter (0 = not yet read the slot, 1 = slot read, 2 = finished), the
snapshot obtained by the read, and the value answered to the device. -/
structure TakeThread where
  pc : Nat
  snap : Option FirebaseCmd
  ret : Option (Option String × Option String)
deriving DecidableEq

/-- Shared state of two take_pending calls racing on the Firebase command
slot. -/
structure RaceState where
  slot : Option FirebaseCmd
  t1 : TakeThread
  t2 : TakeThread
deriving DecidableEq

/-- One atomic action of a take_pending call, following the statement
granularity of app.py lines 1211-1217 and 1247-1254: the first action is the
commands_ref.get read, the second checks the snapshot and, when the snapshot
holds an unexecuted command, issues the commands_ref.update write and answers
the command.  The check uses the thread snapshot while the update hits the
shared slot, exactly as the two separate network calls do. -/
def takeStep (slot : Option FirebaseCmd) (t : TakeThread) :
    Option FirebaseCmd × TakeThread :=
  match t.pc with
  | 0 => (slot, { t with pc := 1, snap := slot })
  | 1 =>
      (match t.snap with
       | some cmd =>
           if cmd.executed.getD true then (slot, { t with pc := 2, ret := none })
           else (setExecutedSlot slot,
                 { t with pc := 2, ret := some (cmd.type, cmd.value) })
       | none => (slot, { t with pc := 2, ret := none }))
  | _ => (slot, t)

/-- Run the two racing calls under a schedule: true picks the next action of
the first call, false of the second. -/
def runRace : List Bool → RaceState → RaceState
  | [], s => s
  | b :: rest, s =>
      if b then
        let step := takeStep s.slot s.t1
        runRace rest { slot := step.1, t1 := step.2, t2 := s.t2 }
      else
        let step := takeStep s.slot s.t2
        runRace rest { slot := step.1, t1 := s.t1, t2 := step.2 }

/-- Race model starting point: a given command slot and two calls that have
not run yet. -/
def initRace (slot : Option FirebaseCmd) : RaceState :=
  { slot := slot
    t1 := { pc := 0, snap := none, ret := none }
    t2 := { pc := 0, snap := none, ret := none } }

/-- Initial sensor_current row as inserted by init_db (app.py line 171):
only id and esp32_online = 0 are set, every other column is NULL. -/
def emptyRow : SensorRow :=
  { soil_percent := none, soil_status := none, pump_status := none,
    mode := none, temperature := none, humidity := none,
    battery_voltage := none, battery_percent := none,
    current_consumed := none, power_data := none,
    esp32_online := false, last_update := TsField.absent }

/-- Fresh local database: initial singleton row, no history, no commands. -/
def db0 : LocalDb := { current := emptyRow, history := [], pumpQueue := [] }

/-- Fresh system state: empty Firebase slots and a fresh local database. -/
def s0 : SystemState := { fbSensor := none, fbCommands := none, db := db0 }

/-- Pending mode command row used in concrete scenarios. -/
def rowMode1 : PumpCommandRow :=
  { id := 1, user_id := some 1, command_type := "mode", value := "AUTO",
    created_at := 1, executed := false }

/-- Pending pump command row issued after rowMode1. -/
def rowPump2 : PumpCommandRow :=
  { id := 2, user_id := some 1, command_type := "pump", value := "ON",
    created_at := 2, executed := false }

/-- State with two pending local commands and Firebase unconfigured. -/
def sTwoPending : SystemState :=
  { fbSensor := none, fbCommands := none,
    db := { current := emptyRow, history := [],
            pumpQueue := [rowMode1, rowPump2] } }

/-- Unexecuted Firebase command used in the race scenario. -/
def cmdPending : FirebaseCmd :=
  { type := some "pump", value := some "ON", executed := some false,
    timestamp := some 0 }

/-- Concrete report of the soil-average scenario: the four channels are
40, 60, 80 and 20 and every other field is missing. -/
def repSoil : Report :=
  { soil_percent := some [40, 60, 80, 20], soil_status := none,
    pump_status := none, mode := none, temperature := none,
    humidity := none, battery_voltage := none, battery_percent := none,
    current_consumed := none, power := none }

/-- The sensor_current row with an unparseable last_update and the stored
online flag set. -/
def rowMalformed : SensorRow :=
  { emptyRow with esp32_online := true, last_update := TsField.malformed }

/-- The sensor_current row with a just-written timestamp but a cleared
stored online flag. -/
def rowStaleFlag : SensorRow :=
  { emptyRow with esp32_online := false, last_update := TsField.valid 0 }

/-- Ingest environment with Firebase disabled and no failing call. -/
def envLocalOnly : IngestEnv :=
  { firebaseEnabled := false, fbWriteFails := false, fbCmdFails := false,
    localWriteFails := false, historyFails := false }

/-- Ingest environment with Firebase enabled and no failing call. -/
def envFbOk : IngestEnv :=
  { firebaseEnabled := true, fbWriteFails := false, fbCmdFails := false,
    localWriteFails := false, historyFails := false }

/-- Ingest environment where only the history INSERT raises. -/
def envHistFail : IngestEnv :=
  { firebaseEnabled := false, fbWriteFails := false, fbCmdFails := false,
    localWriteFails := false, historyFails := true }

/-- Poll environment with Firebase disabled. -/
def pollNoFb : PollEnv := { firebaseEnabled := false, fbCmdFails := false }

/-- Poll environment with Firebase enabled and readable. -/
def pollFb : PollEnv := { firebaseEnabled := true, fbCmdFails := false }

/-- Poll environment with Firebase configured but its command read
raising. -/
def pollFbFail : PollEnv := { firebaseEnabled := true, fbCmdFails := true }

/-- State with two pending local commands and a pending Firebase command,
used for the remote-failing poll scenario. -/
def sTwoPendingFb : SystemState :=
  { fbSensor := none, fbCommands := some cmdPending,
    db := { current := emptyRow, history := [],
            pumpQueue := [rowMode1, rowPump2] } }

/-- Read environment with Firebase disabled. -/
def readNoFb : ReadEnv := { firebaseEnabled := false, fbReadFails := false }

/-- Read environment with Firebase enabled and readable. -/
def readFb : ReadEnv := { firebaseEnabled := true, fbReadFails := false }

/-- Ingest environment where Firebase is enabled but its sensor write
raises. -/
def envFbWriteFail : IngestEnv :=
  { firebaseEnabled := true, fbWriteFails := true, fbCmdFails := false,
    localWriteFails := false, historyFails := false }

/-- Firebase command record carrying no executed field at all. -/
def cmdNoExec : FirebaseCmd :=
  { type := some "mode", value := some "AUTO", executed := none,
    timestamp := none }

/-- State whose Firebase command slot holds cmdNoExec and whose local queue
is empty. -/
def sNoExec : SystemState :=
  { fbSensor := none, fbCommands := some cmdNoExec, db := db0 }

/-- A successful scan of firstPending yields a member of the queue whose
executed flag is clear. -/
theorem firstPending_eq_some {q : List PumpCommandRow} {c : PumpCommandRow}
    (h : firstPending q = some c) : c ∈ q ∧ c.executed = false := by
  induction q with
  | nil => simp [firstPending] at h
  | cons a t ih =>
      by_cases ha : a.executed = true
      · rw [firstPending, if_pos ha] at h
        rcases ih h with ⟨hm, he⟩
        exact ⟨List.mem_cons_of_mem _ hm, he⟩
      · rw [firstPending, if_neg ha] at h
        cases h
        exact ⟨List.mem_cons_self _ _, Bool.not_eq_true _ ▸ ha⟩

/-- An empty scan of firstPending means every row of the queue is already
executed. -/
theorem firstPending_eq_none {q : List PumpCommandRow}
    (h : firstPending q = none) : ∀ r ∈ q, r.executed = true := by
  induction q with
  | nil => intro r hr; cases hr
  | cons a t ih =>
      by_cases ha : a.executed = true
      · rw [firstPending, if_pos ha] at h
        intro r hr
        rcases List.mem_cons.mp hr with rfl | hrt
        · exact ha
        · exact ih h r hrt
      · rw [firstPending, if_neg ha] at h
        cases h

/-- On a queue strictly ascending in created_at, firstPending returns the
pending row with the least created_at. -/
theorem firstPending_min {q : List PumpCommandRow} {c : PumpCommandRow}
    (hp : q.Pairwise (fun a b => a.created_at < b.created_at))
    (h : firstPending q = some c) :
    ∀ r ∈ q, r.executed = false → c.created_at ≤ r.created_at := by
  induction q with
  | nil => simp [firstPending] at h
  | cons a t ih =>
      rcases List.pairwise_cons.mp hp with ⟨hhead, htail⟩
      by_cases ha : a.executed = true
      · rw [firstPending, if_pos ha] at h
        intro r hr hre
        rcases List.mem_cons.mp hr with rfl | hrt
        · rw [hre] at ha; cases ha
        · exact ih htail h r hrt hre
      · rw [firstPending, if_neg ha] at h
        cases h
        intro r hr _
        rcases List.mem_cons.mp hr with rfl | hrt
        · exact le_refl _
        · exact le_of_lt (hhead r hrt)

/-- On a queue strictly descending in created_at, firstPending returns the
pending row with the greatest created_at. -/
theorem firstPending_max {q : List PumpCommandRow} {c : PumpCommandRow}
    (hp : q.Pairwise (fun a b => b.created_at < a.created_at))
    (h : firstPending q = some c) :
    ∀ r ∈ q, r.executed = false → r.created_at ≤ c.created_at := by
  induction q with
  | nil => simp [firstPending] at h
  | cons a t ih =>
      rcases List.pairwise_cons.mp hp with ⟨hhead, htail⟩
      by_cases ha : a.executed = true
      · rw [firstPending, if_pos ha] at h
        intro r hr hre
        rcases List.mem_cons.mp hr with rfl | hrt
        · rw [hre] at ha; cases ha
        · exact ih htail h r hrt hre
      · rw [firstPending, if_neg ha] at h
        cases h
        intro r hr _
        rcases List.mem_cons.mp hr with rfl | hrt
        · exact le_refl _
        · exact le_of_lt (hhead r hrt)

/-- A successful reverse scan yields a pending member of the queue, and on a
strictly ascending queue it is the pending row with the greatest
created_at. -/
theorem lastPending_eq_some {q : List PumpCommandRow} {c : PumpCommandRow}
    (h : lastPending q = some c) :
    c ∈ q ∧ c.executed = false ∧
      (q.Pairwise (fun a b => a.created_at < b.created_at) →
        ∀ r ∈ q, r.executed = false → r.created_at ≤ c.created_at) := by
  rcases firstPending_eq_some h with ⟨hm, he⟩
  refine ⟨List.mem_reverse.mp hm, he, ?_⟩
  intro hp r hr hre
  have hrev : q.reverse.Pairwise (fun a b => b.created_at < a.created_at) :=
    List.pairwise_reverse.mpr hp
  exact firstPending_max hrev h r (List.mem_reverse.mpr hr) hre

/-- An empty reverse scan means every row of the queue is already
executed. -/
theorem lastPending_eq_none {q : List PumpCommandRow}
    (h : lastPending q = none) : ∀ r ∈ q, r.executed = true := by
  intro r hr
  exact firstPending_eq_none h r (List.mem_reverse.mpr hr)

/-- Claim C1 counterexample: with the remote backend configured, an issue
call writes the Firebase slot but appends nothing to the local FIFO queue,
so the claimed unconditional double write does not happen. -/
theorem C1_counterexample :
    (set_mode true "manual" 0 1 1 s0).db.pumpQueue = []
    ∧ (set_mode true "manual" 0 1 1 s0).fbCommands
        = some { type := some "mode", value := some "MANUAL",
                 executed := some false, timestamp := some 0 } := by
  constructor
  · rfl
  · rfl

/-- Claim C1, amended: an operator command issue writes exactly one backend.
When Firebase is configured it overwrites the remote single slot with a new
unexecuted command and leaves the local database untouched; otherwise it
appends a new unexecuted row to the local FIFO queue and leaves the Firebase
slot untouched. -/
theorem C1_issue_single_backend (fb : Bool) (mode state : String) (now : ℚ)
    (uid fid : Nat) (s : SystemState) :
    (fb = true →
      (set_mode fb mode now uid fid s).fbCommands
          = some { type := some "mode", value := some (pyUpper mode),
                   executed := some false, timestamp := some now }
      ∧ (set_mode fb mode now uid fid s).db = s.db
      ∧ (set_pump fb state now uid fid s).fbCommands
          = some { type := some "pump", value := some (pyUpper state),
                   executed := some false, timestamp := some now }
      ∧ (set_pump fb state now uid fid s).db = s.db)
    ∧ (fb = false →
      (set_mode fb mode now uid fid s).db.pumpQueue
          = s.db.pumpQueue ++
            [{ id := fid, user_id := some uid, command_type := "mode",
               value := pyUpper mode, created_at := now, executed := false }]
      ∧ (set_mode fb mode now uid fid s).fbCommands = s.fbCommands
      ∧ (set_pump fb state now uid fid s).db.pumpQueue
          = s.db.pumpQueue ++
            [{ id := fid, user_id := some uid, command_type := "pump",
               value := pyUpper state, created_at := now, executed := false }]
      ∧ (set_pump fb state now uid fid s).fbCommands = s.fbCommands) := by
  constructor
  · intro h; subst h; exact ⟨rfl, rfl, rfl, rfl⟩
  · intro h; subst h; exact ⟨rfl, rfl, rfl, rfl⟩

/-- Claim C1 witness: issuing a mode command with Firebase disabled appends
one row to the local queue and leaves the Firebase slot empty. -/
theorem C1_issue_single_backend_witness :
    (set_mode false "manual" 0 1 1 s0).fbCommands = s0.fbCommands
    ∧ (set_mode false "manual" 0 1 1 s0).db.pumpQueue
        = s0.db.pumpQueue ++
          [{ id := 1, user_id := some 1, command_type := "mode",
             value := pyUpper "manual", created_at := 0,
             executed := false }] :=
  ⟨((C1_issue_single_backend false "manual" "on" 0 1 1 s0).2 rfl).2.1,
   ((C1_issue_single_backend false "manual" "on" 0 1 1 s0).2 rfl).1⟩

/-- Claim C2 counterexample: under the interleaving where both take calls
read the slot before either writes the executed flag, both calls answer the
same unexecuted command non-null, so the mark-executed step is not atomic
with respect to the executed check. -/
theorem C2_counterexample :
    (runRace [true, false, true, false] (initRace (some cmdPending))).t1.ret
        = some (some "pump", some "ON")
    ∧ (runRace [true, false, true, false] (initRace (some cmdPending))).t2.ret
        = some (some "pump", some "ON") := by
  constructor
  · rfl
  · rfl

/-- Claim C2, amended: the check-then-update of the command slot is not
atomic, so only serialized executions guarantee at-most-once: when one take
call completes both of its steps before the other starts, exactly one call
answers the command and the other observes it executed and answers null,
in either order. -/
theorem C2_serialized_at_most_once (cmd : FirebaseCmd)
    (h : cmd.executed = some false) :
    ((runRace [true, true, false, false] (initRace (some cmd))).t1.ret
        = some (cmd.type, cmd.value)
      ∧ (runRace [true, true, false, false] (initRace (some cmd))).t2.ret
        = none)
    ∧ ((runRace [false, false, true, true] (initRace (some cmd))).t2.ret
        = some (cmd.type, cmd.value)
      ∧ (runRace [false, false, true, true] (initRace (some cmd))).t1.ret
        = none) := by
  refine ⟨⟨?_, ?_⟩, ⟨?_, ?_⟩⟩ <;>
    simp [runRace, takeStep, initRace, setExecutedSlot, h]

/-- Claim C2 witness: the serialized guarantee evaluated at the concrete
pending pump command. -/
theorem C2_serialized_at_most_once_witness :
    cmdPending.executed = some false
    ∧ (runRace [true, true, false, false] (initRace (some cmdPending))).t1.ret
        = some (cmdPending.type, cmdPending.value)
    ∧ (runRace [true, true, false, false] (initRace (some cmdPending))).t2.ret
        = none :=
  ⟨rfl, (C2_serialized_at_most_once cmdPending rfl).1.1,
   (C2_serialized_at_most_once cmdPending rfl).1.2⟩

/-- Claim C3 counterexample: with two pending local commands (the mode row
created first, the pump row second), the dedicated poll endpoint answers the
pump row, which is the newest pending row, while the oldest unexecuted row
is still the mode row, so the endpoint does not pop the oldest row as the
claim states.  The same happens under both claimed triggers: Firebase
unconfigured, and Firebase configured but its command read raising. -/
theorem C3_counterexample :
    (esp32_get_command pollNoFb sTwoPending).1
        = { has_command := true, type := some "pump", value := some "ON" }
    ∧ (esp32_get_command pollFbFail sTwoPendingFb).1
        = { has_command := true, type := some "pump", value := some "ON" }
    ∧ firstPending sTwoPending.db.pumpQueue = some rowMode1
    ∧ firstPending sTwoPendingFb.db.pumpQueue = some rowMode1
    ∧ rowMode1.executed = false
    ∧ rowMode1.created_at < rowPump2.created_at
    ∧ (esp32_get_command pollNoFb sTwoPending).1.type
        ≠ some rowMode1.command_type
    ∧ (esp32_get_command pollFbFail sTwoPendingFb).1.type
        ≠ some rowMode1.command_type := by
  refine ⟨rfl, rfl, rfl, rfl, rfl, by norm_num [rowMode1, rowPump2],
    by decide, by decide⟩

/-- Claim C3, amended: whenever the remote backend is unconfigured or its
command read fails, the dedicated poll endpoint pops the NEWEST unexecuted
row (created_at descending), marks it executed and returns it, and answers
has_command false when none is pending; the ingest path instead pops the
OLDEST unexecuted row, so the two semantics differ whenever more than one
command is pending. -/
theorem C3_poll_newest_first (env : PollEnv)
    (henv : env.firebaseEnabled = false ∨ env.fbCmdFails = true)
    (s : SystemState)
    (hp : s.db.pumpQueue.Pairwise (fun a b => a.created_at < b.created_at)) :
    (∀ c, lastPending s.db.pumpQueue = some c →
      esp32_get_command env s
          = ({ has_command := true, type := some c.command_type,
               value := some c.value },
             { s with db := { s.db with
                 pumpQueue := markExecuted c.id s.db.pumpQueue } })
      ∧ c.executed = false
      ∧ ∀ r ∈ s.db.pumpQueue, r.executed = false →
          r.created_at ≤ c.created_at)
    ∧ (lastPending s.db.pumpQueue = none →
      esp32_get_command env s
          = ({ has_command := false, type := none, value := none }, s)
      ∧ ∀ r ∈ s.db.pumpQueue, r.executed = true)
    ∧ (∀ c, firstPending s.db.pumpQueue = some c →
      (takeOldestLocal s.db.pumpQueue).1 = some (c.command_type, c.value)
      ∧ ∀ r ∈ s.db.pumpQueue, r.executed = false →
          c.created_at ≤ r.created_at) := by
  have hcond : (env.firebaseEnabled && !env.fbCmdFails) = false := by
    rcases henv with h | h <;> simp [h]
  refine ⟨?_, ?_, ?_⟩
  · intro c hc
    rcases lastPending_eq_some hc with ⟨_, he, hmax⟩
    refine ⟨?_, he, hmax hp⟩
    simp [esp32_get_command, hcond, pollLocal, hc]
  · intro hn
    refine ⟨?_, lastPending_eq_none hn⟩
    simp [esp32_get_command, hcond, pollLocal, hn]
  · intro c hc
    exact ⟨by simp [takeOldestLocal, hc], firstPending_min hp hc⟩

/-- Claim C3 witness: on the two-command states the poll endpoint pops the
newest row, both with Firebase unconfigured and with Firebase configured
but its command read failing. -/
theorem C3_poll_newest_first_witness :
    esp32_get_command pollNoFb sTwoPending
        = ({ has_command := true, type := some "pump", value := some "ON" },
           { sTwoPending with db := { sTwoPending.db with
               pumpQueue := markExecuted 2 sTwoPending.db.pumpQueue } })
    ∧ esp32_get_command pollFbFail sTwoPendingFb
        = ({ has_command := true, type := some "pump", value := some "ON" },
           { sTwoPendingFb with db := { sTwoPendingFb.db with
               pumpQueue := markExecuted 2 sTwoPendingFb.db.pumpQueue } }) :=
  ⟨((C3_poll_newest_first pollNoFb (Or.inl rfl) sTwoPending
      (by decide)).1 rowPump2 (by decide)).1,
   ((C3_poll_newest_first pollFbFail (Or.inr rfl) sTwoPendingFb
      (by decide)).1 rowPump2 (by decide)).1⟩

/-- Claim C4 counterexample: with only the history INSERT raising, the push
handler answers the generic error response instead of the claimed success
response, because no inner try block protects the history append. -/
theorem C4_counterexample :
    (esp32_push_data envHistFail repSoil 5 s0).1 = IngestResult.err := by
  rfl

/-- Claim C4, amended: a failure of the history-append step aborts the
response: the exception escapes to the generic handler, the device receives
the error response (success false with server-error status), and the
uncommitted local write of this request is rolled back. -/
theorem C4_history_failure_aborts (env : IngestEnv) (report : Report)
    (ts : ℚ) (s : SystemState) (hh : env.historyFails = true)
    (hl : env.localWriteFails = false) :
    (esp32_push_data env report ts s).1 = IngestResult.err
    ∧ (esp32_push_data env report ts s).2.db = s.db := by
  by_cases hfb : (env.firebaseEnabled && !env.fbWriteFails) = true
  · constructor <;> simp [esp32_push_data, hh, hl, hfb]
  · constructor <;> simp [esp32_push_data, hh, hl, hfb]

/-- Claim C4 witness: the amended statement at the concrete failing
environment. -/
theorem C4_history_failure_aborts_witness :
    (esp32_push_data envHistFail repSoil 5 s0).1 = IngestResult.err
    ∧ (esp32_push_data envHistFail repSoil 5 s0).2.db = s0.db :=
  C4_history_failure_aborts envHistFail repSoil 5 s0 rfl rfl

/-- Claim C5: on ingest the Firebase write comes first and its failure is
swallowed: whenever the local write and the history insert do not fail the
response is a success and the local row holds the just-ingested state, for
every combination of the remote flags; a local write failure instead makes
the handler answer the error response with nothing committed locally, and
the Firebase write has already happened by then when Firebase is enabled and
its own write call did not fail. -/
theorem C5_write_policy (env : IngestEnv) (report : Report) (ts : ℚ)
    (s : SystemState) :
    (env.localWriteFails = false → env.historyFails = false →
      (esp32_push_data env report ts s).2.db.current = rowOfReport report ts
      ∧ ∃ c, (esp32_push_data env report ts s).1 = IngestResult.ok c)
    ∧ (env.localWriteFails = true →
      (esp32_push_data env report ts s).1 = IngestResult.err
      ∧ (esp32_push_data env report ts s).2.db = s.db
      ∧ (env.firebaseEnabled = true → env.fbWriteFails = false →
          (esp32_push_data env report ts s).2.fbSensor
            = some (fbDataOfReport report ts))) := by
  obtain ⟨fb, fw, fc, lw, hf⟩ := env
  cases fb <;> cases fw <;> cases fc <;> cases lw <;> cases hf <;>
    simp [esp32_push_data]

/-- Claim C5 witness: a push with Firebase enabled but its sensor write
failing still succeeds and stores the report locally. -/
theorem C5_write_policy_witness :
    (esp32_push_data envFbWriteFail repSoil 5 s0).2.db.current
      = rowOfReport repSoil 5 :=
  ((C5_write_policy envFbWriteFail repSoil 5 s0).1 rfl rfl).1

/-- Claim C6 counterexample: the local read branch conjoins the stored
online flag with the staleness test, so a row whose timestamp is current
(elapsed 0 seconds, below the 30 second timeout) but whose stored flag is 0
is reported offline, refuting the claimed equivalence of the flag with the
elapsed-time test alone. -/
theorem C6_counterexample :
    localOnline rowStaleFlag 0 ESP32_TIMEOUT_SECONDS = some false
    ∧ ((0 : ℚ) - 0 < ESP32_TIMEOUT_SECONDS)
    ∧ get_data readNoFb none (some rowStaleFlag) 0
        = ReadResult.snapshot Source.local (localView rowStaleFlag false) := by
  refine ⟨rfl, by norm_num [ESP32_TIMEOUT_SECONDS], rfl⟩

/-- Claim C6, amended: with a stored last-seen at T and a read at
now = T + d, the Firebase branch reports online exactly when d < 30 (strict,
so d = 30 gives offline), the SQLite branch reports online exactly when the
stored flag is set AND d < 30, and both branches report offline when no
last-seen exists. -/
theorem C6_online_determination :
    (∀ t now : ℚ, fbOnline (TsField.valid t) now ESP32_TIMEOUT_SECONDS
        = decide (now - t < 30))
    ∧ (∀ now : ℚ, fbOnline TsField.absent now ESP32_TIMEOUT_SECONDS = false)
    ∧ (∀ (r : SensorRow) (t now : ℚ), r.last_update = TsField.valid t →
        localOnline r now ESP32_TIMEOUT_SECONDS
          = some (r.esp32_online && decide (now - t < 30)))
    ∧ (∀ r : SensorRow, ∀ now : ℚ, r.last_update = TsField.absent →
        localOnline r now ESP32_TIMEOUT_SECONDS = some false) := by
  refine ⟨?_, ?_, ?_, ?_⟩
  · intro t now; rfl
  · intro now; rfl
  · intro r t now h; simp [localOnline, h, ESP32_TIMEOUT_SECONDS]
  · intro r now h; simp [localOnline, h]

/-- Claim C6 witness: the SQLite equation evaluated on the concrete row with
a cleared stored flag, at ten seconds after its timestamp. -/
theorem C6_online_determination_witness :
    localOnline rowStaleFlag 10 ESP32_TIMEOUT_SECONDS
      = some (rowStaleFlag.esp32_online && decide ((10 : ℚ) - 0 < 30)) :=
  C6_online_determination.2.2.1 rowStaleFlag 0 10 rfl

/-- Claim C7: with Firebase disabled and a sensor_current row whose
last_update is unparseable while a stored online flag exists (set to 1), the
dashboard read answers the generic error response with HTTP status 500
instead of degrading to the stored flag, because the degraded-mode handler
itself raises an AttributeError on the sqlite3.Row object. -/
theorem C7_malformed_last_update_errors :
    get_data readNoFb none (some rowMalformed) 0 = ReadResult.error
    ∧ rowMalformed.esp32_online = true := by
  exact ⟨rfl, rfl⟩

/-- Claim C8: every dashboard read that reaches a snapshot answers exactly
one backend in full, tagged with its provenance: the Firebase snapshot when
Firebase is configured, its read does not raise and the record is non-empty,
and otherwise the SQLite snapshot of the singleton row; the snapshot
functions each read a single backend, so no field-by-field merge can
occur. -/
theorem C8_single_source_snapshot (env : ReadEnv)
    (fbData : Option FbSensorData) (row : Option SensorRow) (now : ℚ)
    (r : SensorRow) (hrow : row = some r)
    (hok : r.last_update ≠ TsField.malformed) :
    (∀ d, env.firebaseEnabled = true → env.fbReadFails = false →
        fbData = some d →
        get_data env fbData row now
          = ReadResult.snapshot Source.remote
              (fbView d now ESP32_TIMEOUT_SECONDS))
    ∧ ((env.firebaseEnabled = false ∨ env.fbReadFails = true ∨ fbData = none) →
        ∃ b, localOnline r now ESP32_TIMEOUT_SECONDS = some b
          ∧ get_data env fbData row now
              = ReadResult.snapshot Source.local (localView r b)) := by
  subst hrow
  constructor
  · intro d h1 h2 h3; subst h3; simp [get_data, h1, h2]
  · intro hcase
    have hb : ∃ b, localOnline r now ESP32_TIMEOUT_SECONDS = some b := by
      cases hlu : r.last_update with
      | absent => exact ⟨false, by simp [localOnline, hlu]⟩
      | malformed => exact absurd hlu hok
      | valid t =>
          exact ⟨r.esp32_online && decide (now - t < ESP32_TIMEOUT_SECONDS),
                 by simp [localOnline, hlu]⟩
    rcases hb with ⟨b, hb⟩
    refine ⟨b, hb, ?_⟩
    rcases hcase with h | h | h
    · simp [get_data, h, get_data_local, hb]
    · simp [get_data, h, get_data_local, hb]
    · subst h
      cases h1 : env.firebaseEnabled <;> cases h2 : env.fbReadFails <;>
        simp [get_data, h1, h2, get_data_local, hb]

/-- Claim C8 witness: with Firebase enabled and holding a record, the read
answers the remote snapshot; with Firebase disabled it answers the local
snapshot of the same state. -/
theorem C8_single_source_snapshot_witness :
    get_data readFb (some (fbDataOfReport repSoil 5)) (some emptyRow) 6
      = ReadResult.snapshot Source.remote
          (fbView (fbDataOfReport repSoil 5) 6 ESP32_TIMEOUT_SECONDS)
    ∧ ∃ b, localOnline emptyRow 6 ESP32_TIMEOUT_SECONDS = some b
        ∧ get_data readNoFb (some (fbDataOfReport repSoil 5)) (some emptyRow) 6
            = ReadResult.snapshot Source.local (localView emptyRow b) :=
  ⟨(C8_single_source_snapshot readFb (some (fbDataOfReport repSoil 5))
      (some emptyRow) 6 emptyRow rfl (by simp [emptyRow])).1
      (fbDataOfReport repSoil 5) rfl rfl rfl,
   (C8_single_source_snapshot readNoFb (some (fbDataOfReport repSoil 5))
      (some emptyRow) 6 emptyRow rfl (by simp [emptyRow])).2
      (Or.inl rfl)⟩

/-- Claim C9: a successful ingest appends exactly one history row whose
soil_avg is the arithmetic mean of the soil channels (stated as average
times length equals sum), an ingested empty channel list records soil_avg 0
rather than null, and the concrete report with channels 40, 60, 80, 20
records soil_avg 50 exactly. -/
theorem C9_history_soil_avg (report : Report) (sp : List Int) (ts : ℚ)
    (s : SystemState) (hsp : report.soil_percent = some sp)
    (hne : sp ≠ []) :
    (esp32_push_data envLocalOnly report ts s).2.db.history
        = s.db.history ++ [historyOfReport report]
    ∧ (historyOfReport report).soil_avg * (sp.length : ℚ) = (sp.sum : ℚ)
    ∧ (∀ rep : Report, rep.soil_percent = some [] →
        (historyOfReport rep).soil_avg = 0)
    ∧ (historyOfReport repSoil).soil_avg = 50 := by
  refine ⟨?_, ?_, ?_, ?_⟩
  · simp [esp32_push_data, envLocalOnly]
  · have h0 : sp.length ≠ 0 := fun hz => hne (List.length_eq_zero.mp hz)
    have hlen : ((sp.length : ℚ)) ≠ 0 := Nat.cast_ne_zero.mpr h0
    simp only [historyOfReport, hsp, Option.getD_some, soil_avg, if_neg hne]
    field_simp
  · intro rep h
    simp [historyOfReport, h, soil_avg]
  · have hx : ([40, 60, 80, 20] : List Int) ≠ [] := by decide
    norm_num [historyOfReport, repSoil, soil_avg, hx]

/-- Claim C9 witness: the concrete four-channel ingest appends its history
row and its average times four equals the channel sum. -/
theorem C9_history_soil_avg_witness :
    (esp32_push_data envLocalOnly repSoil 5 s0).2.db.history
        = s0.db.history ++ [historyOfReport repSoil]
    ∧ (historyOfReport repSoil).soil_avg
        * ((([40, 60, 80, 20] : List Int)).length : ℚ)
      = ((([40, 60, 80, 20] : List Int)).sum : ℚ) :=
  ⟨(C9_history_soil_avg repSoil [40, 60, 80, 20] 5 s0 rfl (by decide)).1,
   (C9_history_soil_avg repSoil [40, 60, 80, 20] 5 s0 rfl (by decide)).2.1⟩

/-- Claim C10: a Firebase command record with no executed field at all is
treated as already executed by both device-facing paths: the ingest take
answers no command and leaves the record unmodified, and the dedicated poll
endpoint skips the remote slot (answering has_command false when the local
queue is empty) and leaves the record unmodified. -/
theorem C10_absent_executed_field (cmd : FirebaseCmd)
    (h : cmd.executed = none) (report : Report) (ts : ℚ) (s : SystemState)
    (hs : s.fbCommands = some cmd) (hq : s.db.pumpQueue = []) :
    (esp32_push_data envFbOk report ts s).1 = IngestResult.ok none
    ∧ (esp32_push_data envFbOk report ts s).2.fbCommands = some cmd
    ∧ (esp32_get_command pollFb s).1
        = { has_command := false, type := none, value := none }
    ∧ (esp32_get_command pollFb s).2 = s := by
  have hget : cmd.executed.getD true = true := by simp [h]
  refine ⟨?_, ?_, ?_, ?_⟩
  · simp [esp32_push_data, envFbOk, fbTake, hs, hget]
  · simp [esp32_push_data, envFbOk, fbTake, hs, hget]
  · simp [esp32_get_command, pollFb, hs, hget, pollLocal, lastPending, hq,
          firstPending]
  · simp [esp32_get_command, pollFb, hs, hget, pollLocal, lastPending, hq,
          firstPending]

/-- Claim C10 witness: both paths evaluated on the concrete record without
an executed field. -/
theorem C10_absent_executed_field_witness :
    (esp32_push_data envFbOk repSoil 5 sNoExec).1 = IngestResult.ok none
    ∧ (esp32_get_command pollFb sNoExec).2 = sNoExec :=
  ⟨(C10_absent_executed_field cmdNoExec rfl repSoil 5 sNoExec rfl rfl).1,
   (C10_absent_executed_field cmdNoExec rfl repSoil 5 sNoExec rfl rfl).2.2.2⟩
